import Mathlib

/-!
Verification development for the HiLabs healthcare contract clause
classification cascade.

The development shallowly embeds the classification core of the repository:

* worker/classification/spacy_classifier.py  (namespace Spacy): the
  SpacyClassifier multi-step cascade, attribute detection, per-attribute
  best-template selection and per-contract classification;
* worker/tasks/stage2_spacy_classification.py  (namespace Stage2): the
  summary counting performed by the classify_contract task;
* worker/classification/classification_engine.py  (namespace Engine): the
  ClassificationEngine rule set and its guard for missing clause text;
* notebooks/Contract_Clause_Classifier.py  (namespace NB): the notebook
  variant of the cascade, including choose_best_template, the component
  that ranks candidate templates by (label priority, score);
* worker/classification_parameters.py: the EXCEPTION_TOKENS list shared by
  both cascades.

Modelling conventions.  Python str values are Lean String; Python floats
are Lean rationals (every constant of the source is an exact decimal, and
no settled property depends on floating-point rounding); Python dicts used
as records are Lean structures.  The external scoring primitives that the
spec declares as opaque model handles (rapidfuzz fuzz.ratio, the SBERT
encoder, the cross encoder, the Python re engine on the rich placeholder
regexes) are fields of an Engines structure and the theorems quantify over
them; concrete witnesses instantiate them with values inside their declared
numeric ranges.  The simple attribute and methodology regexes of
spacy_classifier.py use only literal characters, the wildcard dot-star and
the digit class, so Python re.search is modelled concretely for exactly
that sublanguage (reSearch below).  The Python field named attribute is
called attr here because attribute is a Lean keyword.
-/

namespace HiLabs

/-- Model of the Python method str.lower, character by character (all text
handled by the classifier is ASCII). -/
def pyLower (s : String) : String := ⟨s.data.map Char.toLower⟩

/-- Model of the Python substring test (pat in hay) on character lists. -/
def containsSeq (pat : List Char) : List Char → Bool
  | [] => pat.isEmpty
  | c :: t => pat.isPrefixOf (c :: t) || containsSeq pat t

/-- Model of the Python expression (pat in hay) for strings. -/
def strIn (pat hay : String) : Bool := containsSeq pat.data hay.data

/-- Does f accept some suffix of the list (used to model both the search
loop of re.search and the wildcard dot-star)? -/
def anySuffix (f : List Char → Bool) : List Char → Bool
  | [] => f []
  | c :: t => f (c :: t) || anySuffix f t

/-- Does the list start with one or more digits followed by a suffix
accepted by f (the digit class of the regex sublanguage)? -/
def digitsThen (f : List Char → Bool) : List Char → Bool
  | [] => false
  | c :: t => c.isDigit && (f t || digitsThen f t)

/-- Matcher for the regex sublanguage actually used by the patterns of
spacy_classifier.py: literal characters, the wildcard dot-star, and the
one-or-more digit class.  reMatch p s decides whether pattern p matches a
prefix of s, with the same acceptance semantics as Python re for this
sublanguage (the texts involved contain no newline). -/
def reMatch : List Char → List Char → Bool
  | [], _ => true
  | '.' :: '*' :: ps, s => anySuffix (reMatch ps) s
  | '\\' :: 'd' :: '+' :: ps, s => digitsThen (reMatch ps) s
  | _ :: _, [] => false
  | c :: ps, x :: t => c == x && reMatch ps t

/-- Model of Python re.search(pat, text) for the regex sublanguage of
spacy_classifier.py: the pattern may match starting at any position. -/
def reSearch (pat text : String) : Bool := anySuffix (reMatch pat.data) text.data

/-- StepResult dataclass of spacy_classifier.py (one cascade step). -/
structure StepResult where
  step_name : String
  passed : Bool
  score : Option ℚ
  reason : String
deriving DecidableEq

/-- TemplateClause dataclass (notebooks/Contract_Clause_Classifier.py; the
worker imports the same shape from templates.template_loader).  The source
field attribute is called attr because attribute is a Lean keyword. -/
structure TemplateClause where
  name : String
  attr : String
  raw_text : String
  norm_text : String
  has_exception_tokens : Bool
deriving DecidableEq

/-- Clause dictionary consumed by SpacyClassifier.classify_clauses: the
keys clause_id, text and the optional norm_text (clause.get with a
lowercased default models a possibly missing key). -/
structure ClauseDict where
  clause_id : ℕ
  text : String
  norm_text : Option String
deriving DecidableEq

/-- ClassificationDecision dataclass of spacy_classifier.py.  The empty
string in attr and template_used is how the source encodes absence. -/
structure ClassificationDecision where
  clause_id : ℕ
  attr : String
  template_used : String
  label : String
  score : ℚ
  rule : String
  text : String
  steps : List StepResult
deriving DecidableEq

/-- EXCEPTION_TOKENS of worker/classification_parameters.py, identical to
the list in the notebook sources; the missing worker helper
TemplateLoader.get_exception_tokens is modelled as returning this list. -/
def EXCEPTION_TOKENS : List String :=
  ["except", "unless", "provided that",
   "subject to", "however,", "save that",
   "notwithstanding", "only if"]

/-- Result quadruple (label, score, rule, steps) returned by the cascades
of both classifier variants. -/
abbrev CResult := String × ℚ × String × List StepResult

namespace Spacy

/-- External scoring primitives injected into the worker cascade: the
rapidfuzz ratio (a value in [0, 100]), the Python re.sub pipeline over the
placeholder map (an opaque text rewrite), and the optional SBERT model;
sbertModel = none models self.sbert_model is None (model failed to load),
and an inner none models the encode call raising an exception. -/
structure Engines where
  fuzzRatio : String → String → ℚ
  placeholderNormalize : String → String
  sbertModel : Option (String → String → Option ℚ)

/-- Threshold self.fuzzy_threshold = 85 set in SpacyClassifier init. -/
def fuzzy_threshold : ℚ := 85

/-- Threshold self.sbert_threshold = 0.75 set in SpacyClassifier init. -/
def sbert_threshold : ℚ := 3/4

/-- Threshold self.sbert_ambig_low = 0.60 set in SpacyClassifier init. -/
def sbert_ambig_low : ℚ := 3/5

/-- Threshold self.sbert_ambig_high = 0.75 set in SpacyClassifier init. -/
def sbert_ambig_high : ℚ := 3/4

/-- self.attribute_patterns of SpacyClassifier, in insertion order. -/
def attribute_patterns : List (String × List String) :=
  [("Medicaid Timely Filing",
     ["medicaid.*claim.*\\d+.*day", "medicaid.*filing", "medicaid.*submission",
      "120.*day.*medicaid", "medicaid.*eligibility.*date"]),
   ("Medicare Timely Filing",
     ["medicare.*claim.*\\d+.*day", "medicare.*filing", "medicare.*submission",
      "365.*day.*medicare", "medicare.*secondary.*payor"]),
   ("No Steerage/SOC",
     ["network.*participation", "provider.*network", "steerage",
      "standard.*care", "network.*designated", "participation.*attachment"]),
   ("Medicaid Fee Schedule",
     ["medicaid.*fee.*schedule", "medicaid.*\\d+.*percent", "medicaid.*eligible.*charge",
      "medicaid.*compensation", "medicaid.*rate"]),
   ("Medicare Fee Schedule",
     ["medicare.*advantage", "medicare.*fee.*schedule", "medicare.*eligible.*charge",
      "ma.*covered.*service", "medicare.*rate"])]

/-- SpacyClassifier detect_attributes: an attribute is detected when one
of its patterns matches the lowercased clause text. -/
def detect_attributes (text : String) : List String :=
  attribute_patterns.filterMap fun ap =>
    if ap.2.any (fun p => reSearch p (pyLower text)) then some ap.1 else none

/-- SpacyClassifier contains_exception_tokens: when the template itself
has exception wording the check is suppressed, otherwise any exception
token occurring in the lowercased clause text fires it. -/
def contains_exception_tokens (text : String) (template_has_exception : Bool) : Bool :=
  if template_has_exception then false
  else EXCEPTION_TOKENS.any (fun tok => strIn tok (pyLower text))

/-- SpacyClassifier check_placeholder_substitution: rapidfuzz ratio of the
two placeholder-normalized, lowercased texts against the constant 90. -/
def check_placeholder_substitution (E : Engines) (clause_text template_text : String) : Bool :=
  decide (E.fuzzRatio (pyLower (E.placeholderNormalize clause_text))
            (pyLower (E.placeholderNormalize template_text)) ≥ 90)

/-- SpacyClassifier compute_sbert_similarity: the try/except of the source
returns 0.0 whenever the underlying model call raises. -/
def compute_sbert_similarity (model : String → String → Option ℚ) (t1 t2 : String) : ℚ :=
  match model t1 t2 with
  | some v => v
  | none => 0

/-- methodology_patterns of SpacyClassifier detect_methodology_reference. -/
def methodology_patterns : List String :=
  ["medicare.*rate", "billed.*charge", "usual.*customary",
   "fair.*market", "negotiated.*rate", "contracted.*rate"]

/-- SpacyClassifier detect_methodology_reference. -/
def detect_methodology_reference (text : String) : Bool :=
  methodology_patterns.any (fun p => reSearch p (pyLower text))

/-- Steps F (different methodology) and the default rule of
SpacyClassifier classify_against_template, shared by both branches of the
SBERT availability match. -/
def methodology_and_default (clause_text : String) (fuzzy_score : ℚ)
    (steps : List StepResult) : CResult :=
  let has_diff := detect_methodology_reference clause_text
  let steps := steps ++
    [⟨"different_methodology", has_diff, none, "References alternate payment methodology"⟩]
  if has_diff then ("Non-Standard", 85/100, "different_methodology", steps)
  else
    let final_score : ℚ := if fuzzy_score > 0 then fuzzy_score / 100 else 0
    let steps := steps ++
      [⟨"default_nonstandard", true, some final_score, "Low similarity, no rules satisfied"⟩]
    ("Non-Standard", final_score, "low_similarity", steps)

/-- SpacyClassifier classify_against_template: the ordered cascade for one
(clause, template) pair.  Dynamic number formatting inside the reason
strings of the source is elided; the numeric value itself is carried in
the score field exactly as in the source. -/
def classify_against_template (E : Engines) (clause_text clause_norm : String)
    (t : TemplateClause) : CResult :=
  let has_exception := contains_exception_tokens clause_text t.has_exception_tokens
  let steps : List StepResult :=
    [⟨"exception_check", has_exception, none, "Detected conditional/exception tokens"⟩]
  if has_exception then ("Non-Standard", 9/10, "new_condition", steps)
  else
    let exact_match := clause_norm == t.norm_text
    let steps := steps ++
      [⟨"exact_normalized_match", exact_match, none, "Exact match after normalization"⟩]
    if exact_match then ("Standard", 99/100, "exact_norm", steps)
    else
      let placeholder_match := check_placeholder_substitution E clause_text t.raw_text
      let steps := steps ++
        [⟨"placeholder_substitution", placeholder_match, none, "Placeholder/value substitutions align"⟩]
      if placeholder_match then ("Standard", 95/100, "placeholder_subst", steps)
      else
        let fuzzy_score := E.fuzzRatio clause_norm t.norm_text
        let fuzzy_pass := decide (fuzzy_score ≥ fuzzy_threshold)
        let steps := steps ++
          [⟨"fuzzy_lexical", fuzzy_pass, some (fuzzy_score / 100), "RapidFuzz ratio"⟩]
        if fuzzy_pass then ("Standard", 9/10, "lexical_high", steps)
        else
          match E.sbertModel with
          | some model =>
            let sbert_score := compute_sbert_similarity model clause_text t.raw_text
            let sbert_high := decide (sbert_score ≥ sbert_threshold)
            let steps := steps ++
              [⟨"semantic_sbert", sbert_high, some sbert_score, "SBERT cosine"⟩]
            if sbert_high then ("Standard", 85/100, "semantic_high", steps)
            else if sbert_ambig_low ≤ sbert_score ∧ sbert_score < sbert_ambig_high then
              let steps := steps ++
                [⟨"semantic_ambiguous", true, some sbert_score, "SBERT in ambiguous range"⟩]
              ("Ambiguous", sbert_score, "semantic_ambiguous", steps)
            else methodology_and_default clause_text fuzzy_score steps
          | none => methodology_and_default clause_text fuzzy_score steps

/-- The best-result loop of SpacyClassifier classify_clause_for_attribute:
best_result starts as None with best_score -1.0 and is replaced whenever a
result has a strictly greater score. -/
def select_best (E : Engines) (clause_text clause_norm : String) :
    List TemplateClause → Option CResult × ℚ → Option CResult × ℚ
  | [], acc => acc
  | t :: ts, acc =>
    let result := classify_against_template E clause_text clause_norm t
    if result.2.1 > acc.2 then
      select_best E clause_text clause_norm ts (some result, result.2.1)
    else
      select_best E clause_text clause_norm ts acc

/-- SpacyClassifier classify_clause_for_attribute.  Note that the source
uses relevant_templates[0].name as template_used even when the best result
came from another template of the list. -/
def classify_clause_for_attribute (E : Engines) (templates : List TemplateClause)
    (clause : ClauseDict) (a : String) : ClassificationDecision :=
  let clause_text := clause.text
  let clause_norm := clause.norm_text.getD (pyLower clause_text)
  match templates.filter (fun t => t.attr == a) with
  | [] =>
    { clause_id := clause.clause_id, attr := a, template_used := "",
      label := "Non-Standard", score := 0, rule := "no_template_found",
      text := clause_text, steps := [] }
  | t0 :: rest =>
    match (select_best E clause_text clause_norm (t0 :: rest) (none, -1)).1 with
    | some r =>
      { clause_id := clause.clause_id, attr := a, template_used := t0.name,
        label := r.1, score := r.2.1, rule := r.2.2.1,
        text := clause_text, steps := r.2.2.2 }
    | none =>
      { clause_id := clause.clause_id, attr := a, template_used := "",
        label := "Non-Standard", score := 0, rule := "classification_failed",
        text := clause_text, steps := [] }

/-- The Skip decision recorded by classify_clauses for a clause that
matches no target attribute. -/
def skip_decision (clause : ClauseDict) : ClassificationDecision :=
  { clause_id := clause.clause_id, attr := "", template_used := "",
    label := "Skip", score := 0, rule := "no_target_attribute",
    text := clause.text, steps := [] }

/-- SpacyClassifier classify_clauses: one Skip decision per undetected
clause, otherwise one decision per detected attribute. -/
def classify_clauses (E : Engines) (templates : List TemplateClause)
    (clauses : List ClauseDict) : List ClassificationDecision :=
  clauses.flatMap fun c =>
    let detected := detect_attributes c.text
    if detected.isEmpty then [skip_decision c]
    else detected.map (fun a => classify_clause_for_attribute E templates c a)

end Spacy

namespace Stage2

/-- The count fields computed by the classify_contract task of
stage2_spacy_classification.py (lines 155-159 and 222-225): the contract
record stores total, standard, non-standard and ambiguous counts; no Skip
count is computed anywhere in the task. -/
structure SummaryCounts where
  total_clauses : ℕ
  classified_clauses : ℕ
  standard_count : ℕ
  non_standard_count : ℕ
  ambiguous_count : ℕ
deriving DecidableEq

/-- The label filter of the task: valid_classifications keeps the labels
Standard, Non-Standard and Ambiguous. -/
def valid_labels : List String := ["Standard", "Non-Standard", "Ambiguous"]

/-- The summary computation of classify_contract: counts are taken over
the decision list (one decision per clause-attribute pair), while
total_clauses is the length of the clause list. -/
def summarize (clauses : List ClauseDict) (results : List ClassificationDecision) :
    SummaryCounts :=
  let valid := results.filter (fun r => valid_labels.contains r.label)
  { total_clauses := clauses.length
    classified_clauses := valid.length
    standard_count := (valid.filter (fun r => r.label == "Standard")).length
    non_standard_count := (valid.filter (fun r => r.label == "Non-Standard")).length
    ambiguous_count := (valid.filter (fun r => r.label == "Ambiguous")).length }

end Stage2

namespace Engine

/-- The similarity score dictionary produced by SimilarityMatcher
calculate_similarity, restricted to the two keys the classification rules
read (overall_score, keyword_similarity). -/
structure SimScores where
  overall_score : ℚ
  keyword_similarity : ℚ
deriving DecidableEq

/-- The result dictionary of ClassificationEngine classify_clause,
restricted to its five primary keys (the informational keys
similarity_details, value_substitutions and structural_changes carry no
classification content and are elided). -/
structure CEResult where
  classification : String
  confidence_score : ℤ
  similarity_score : ℚ
  match_type : String
  reason : String
deriving DecidableEq

/-- SimilarityMatcher as an opaque component: its four methods are pure
functions of the two texts.  The matcher lives in
worker/classification/similarity_matcher.py and is exercised by no settled
claim; classify_clause below only threads its outputs. -/
structure Matcher where
  calculate_similarity : String → String → SimScores
  detect_value_substitution : String → String → Bool
  detect_structural_changes : String → String → List String
  get_match_type : SimScores → Bool → List String → String

/-- Model of the Python int() conversion on rationals (truncation toward
zero). -/
def pyInt (q : ℚ) : ℤ := q.num / (q.den : ℤ)

/-- ClassificationEngine apply_attribute_specific_rules; a None return of
the source is modelled as none. -/
def apply_attribute_specific_rules (attribute_name : String) (scores : SimScores)
    (match_type : String) : Option (String × ℤ × String) :=
  let overall := scores.overall_score
  if strIn "Timely Filing" attribute_name then
    if match_type == "value_substitution" && strIn "Medicaid" attribute_name
        && decide (overall > 3/4) then
      some ("Standard", 85, "Acceptable Medicaid timeframe variation")
    else if match_type == "value_substitution" && strIn "Medicare" attribute_name
        && decide (overall > 3/4) then
      some ("Standard", 85, "Acceptable Medicare timeframe variation")
    else if overall < 7/10 then
      some ("Non-Standard", 75, "Timely filing requirements differ significantly")
    else none
  else if strIn "Fee Schedule" attribute_name then
    if match_type == "value_substitution" && decide (overall > 7/10) then
      some ("Standard", min 90 (pyInt (overall * 100)),
        "Acceptable fee schedule percentage variation")
    else if overall < 1/2 then
      some ("Non-Standard", 80, "Different reimbursement methodology")
    else none
  else if strIn "No Steerage" attribute_name || strIn "SOC" attribute_name then
    if decide (scores.keyword_similarity > 3/5) && decide (overall > 65/100) then
      some ("Standard", pyInt ((scores.keyword_similarity + overall) / 2 * 100),
        "Network participation language matches")
    else none
  else none

/-- ClassificationEngine apply_classification_rules (rules 1 to 7 with the
thresholds dictionary of the init method inlined as in the source). -/
def apply_classification_rules (scores : SimScores) (match_type : String)
    (_is_value_substitution : Bool) (structural_changes : List String)
    (attribute_name : String) : String × ℤ × String :=
  let overall := scores.overall_score
  if match_type == "exact_match" then ("Standard", 100, "Exact match with template")
  else if match_type == "value_substitution" && decide (overall > 4/5) then
    ("Standard", min 95 (pyInt (overall * 100)), "Acceptable value substitution")
  else if match_type == "semantic_similarity" && decide (overall > 85/100) then
    ("Standard", min 90 (pyInt (overall * 100)), "Semantically equivalent language")
  else if !structural_changes.isEmpty then
    ("Non-Standard", max 70 (pyInt ((1 - overall) * 100)),
      "Structural changes detected: " ++ String.intercalate ", " structural_changes)
  else
    match apply_attribute_specific_rules attribute_name scores match_type with
    | some r => r
    | none =>
      if overall > 3/5 then
        ("Standard", pyInt (overall * 80), "Partial match - acceptable similarity")
      else
        ("Non-Standard", max 60 (pyInt ((1 - overall) * 100)),
          "Insufficient similarity to template")

/-- The result returned by classify_clause when the contract clause or the
template clause is empty (Python falsiness of the empty string). -/
def no_match_result : CEResult :=
  { classification := "Non-Standard", confidence_score := 0, similarity_score := 0,
    match_type := "no_match", reason := "Missing clause text" }

/-- ClassificationEngine classify_clause: the guard for missing text
followed by the similarity pipeline and the rule application. -/
def classify_clause (m : Matcher) (contract_clause template_clause attribute_name : String) :
    CEResult :=
  if contract_clause == "" || template_clause == "" then no_match_result
  else
    let scores := m.calculate_similarity contract_clause template_clause
    let is_vs := m.detect_value_substitution contract_clause template_clause
    let changes := m.detect_structural_changes contract_clause template_clause
    let match_type := m.get_match_type scores is_vs changes
    let r := apply_classification_rules scores match_type is_vs changes attribute_name
    { classification := r.1, confidence_score := r.2.1,
      similarity_score := scores.overall_score, match_type := match_type,
      reason := r.2.2 }

/-- The count fields of ClassificationEngine generate_summary: total,
Standard count, and non-standard defined as total minus Standard (the
average-confidence, compliance and per-attribute breakdown fields of the
returned dictionary are elided; the record has no Ambiguous or Skip
count).  The input is the list of (attribute name, classification label)
pairs of the classifications dictionary. -/
structure SummaryOut where
  total_clauses : ℕ
  standard_clauses : ℕ
  non_standard_clauses : ℕ
deriving DecidableEq

/-- ClassificationEngine generate_summary, count fields only. -/
def generate_summary (classifications : List (String × String)) : SummaryOut :=
  let total := classifications.length
  let standard := (classifications.filter (fun c => c.2 == "Standard")).length
  { total_clauses := total, standard_clauses := standard,
    non_standard_clauses := total - standard }

end Engine

namespace NB

/-- Characters of the Python regex class backslash-s on ASCII text. -/
def isPySpace (c : Char) : Bool :=
  c == ' ' || c == '\t' || c == '\n' || c == '\r' || c == '\x0b' || c == '\x0c'

/-- Collapse every maximal whitespace run to one space; the flag records
whether the previous character belonged to a run (a true start value also
swallows a leading run). -/
def squeezeWS (prevWS : Bool) : List Char → List Char
  | [] => []
  | c :: t =>
    if isPySpace c then
      (if prevWS then squeezeWS true t else ' ' :: squeezeWS true t)
    else c :: squeezeWS false t

/-- normalize_whitespace of the notebook: re.sub of whitespace runs to one
space followed by strip. -/
def normalize_whitespace (s : String) : String :=
  ⟨((squeezeWS true s.data).reverse.dropWhile (fun c => c == ' ')).reverse⟩

/-- to_ascii_lower of the notebook: normalize_whitespace then lower. -/
def to_ascii_lower (s : String) : String := pyLower (normalize_whitespace s)

/-- contains_exception_tokens of the notebook. -/
def contains_exception_tokens (text : String) (template_has_exception : Bool) : Bool :=
  if template_has_exception then false
  else EXCEPTION_TOKENS.any (fun tok => strIn tok (to_ascii_lower text))

/-- FUZZY_THRESHOLD = 85 of the notebook configuration block. -/
def FUZZY_THRESHOLD : ℚ := 85

/-- SBERT_THRESHOLD = 0.75 of the notebook configuration block. -/
def SBERT_THRESHOLD : ℚ := 3/4

/-- SBERT_AMBIG_LOW = 0.65 of the notebook configuration block. -/
def SBERT_AMBIG_LOW : ℚ := 65/100

/-- SBERT_AMBIG_HIGH = 0.75 of the notebook configuration block. -/
def SBERT_AMBIG_HIGH : ℚ := 3/4

/-- External scoring primitives of the notebook cascade: the SBERT cosine
(a total call in this source), the optional cross encoder, the rapidfuzz
ratio, the re.sub pipeline of normalize_placeholders, and the Python re
engine for the methodology patterns (which use word boundaries and
alternation, outside the concrete sublanguage model). -/
structure Engines where
  sbert_score : String → String → ℚ
  use_cross_encoder : Bool
  cross_encoder_score : String → String → Option ℚ
  fuzzRatio : String → String → ℚ
  normalizePlaceholders : String → String
  reSearchFull : String → String → Bool

/-- Clause dictionary of the notebook (keys clause_id, text, norm). -/
structure NBClause where
  clause_id : ℕ
  text : String
  norm : Option String
deriving DecidableEq

/-- check_placeholder_substitution of the notebook: rapidfuzz ratio of the
two placeholder-normalized texts against the constant 85. -/
def check_placeholder_substitution (E : Engines) (clause_text template_text : String) : Bool :=
  decide (E.fuzzRatio (E.normalizePlaceholders clause_text)
            (E.normalizePlaceholders template_text) ≥ 85)

/-- check_key_verbs_preserved of the notebook: returns False when no nlp
handle is given; classify_against_template passes None. -/
def check_key_verbs_preserved (nlp : Option (String → String → Bool)) (a b : String) : Bool :=
  match nlp with
  | none => false
  | some f => f a b

/-- methodology_patterns of the notebook detect_methodology_reference. -/
def nb_methodology_patterns : List String :=
  ["\\bmedicare\\s+(fee\\s+schedule|rates?)\\b",
   "\\bbilled\\s+charges?\\b",
   "\\busual\\s+and\\s+customary\\b",
   "\\bfair\\s+market\\s+value\\b",
   "\\bprevailing\\s+rates?\\b",
   "\\bother\\s+payer\\s+rates?\\b",
   "\\balternate\\s+payment\\b",
   "\\bdifferent\\s+methodology\\b"]

/-- detect_methodology_reference of the notebook (full regex engine). -/
def detect_methodology_reference (E : Engines) (text : String) : Bool :=
  nb_methodology_patterns.any (fun p => E.reSearchFull p (pyLower text))

/-- The default non-standard return of the notebook cascade. -/
def nb_default (sbert_sim : ℚ) (steps : List StepResult) : CResult :=
  let steps := steps ++
    [⟨"default_nonstandard", true, some sbert_sim, "Low similarity and no earlier rule satisfied."⟩]
  ("Non-Standard", sbert_sim, "low_similarity", steps)

/-- The tail of the notebook cascade after the semantic steps: the
different-methodology check, the optional cross-encoder gate, and the
default non-standard rule. -/
def nb_tail (E : Engines) (c_raw : String) (t : TemplateClause) (sbert_sim : ℚ)
    (steps : List StepResult) : CResult :=
  let has_diff := detect_methodology_reference E c_raw
  let steps := steps ++
    [⟨"different_methodology", has_diff, none, "References alternate payment methodology."⟩]
  if has_diff then ("Non-Standard", 85/100, "different_methodology", steps)
  else if E.use_cross_encoder then
    let ce := E.cross_encoder_score c_raw t.raw_text
    let cePass := match ce with | some v => decide (v ≥ 7/10) | none => false
    let steps := steps ++
      [⟨"deberta_cross_encoder", cePass, ce, "Cross-encoder entailment probability."⟩]
    match ce with
    | some v => if v ≥ 7/10 then ("Standard", v, "deberta_ce_high", steps)
                else nb_default sbert_sim steps
    | none => nb_default sbert_sim steps
  else nb_default sbert_sim steps

/-- classify_against_template of the notebook. -/
def classify_against_template (E : Engines) (clause : NBClause) (t : TemplateClause) : CResult :=
  let c_raw := clause.text
  let c_norm := clause.norm.getD (pyLower clause.text)
  let t_norm := t.norm_text
  let has_exc := contains_exception_tokens c_raw t.has_exception_tokens
  let steps : List StepResult :=
    [⟨"exception_check", has_exc, none, "Detected conditional/exception tokens in clause; template lacks them."⟩]
  if has_exc then ("Non-Standard", 9/10, "new_condition", steps)
  else
    let exact := c_norm == t_norm
    let steps := steps ++
      [⟨"exact_normalized_match", exact, none, "Clause equals template after normalization."⟩]
    if exact then ("Standard", 99/100, "exact_norm", steps)
    else
      let placeholder_match := check_placeholder_substitution E c_raw t.raw_text
      let steps := steps ++
        [⟨"placeholder_substitution", placeholder_match, none, "Placeholders and value substitutions align."⟩]
      if placeholder_match then ("Standard", 95/100, "placeholder_subst", steps)
      else
        let lex := E.fuzzRatio c_norm t_norm
        let key_verbs := check_key_verbs_preserved none c_raw t.raw_text
        let steps := steps ++
          [⟨"key_verbs_preserved", key_verbs, none, "Key verbs and objects preserved despite wording changes."⟩]
        if key_verbs && decide (lex ≥ 80) then ("Standard", 88/100, "minor_wording_diff", steps)
        else
          let steps := steps ++
            [⟨"fuzzy_lexical", decide (lex ≥ FUZZY_THRESHOLD), some (lex / 100), "RapidFuzz ratio"⟩]
          if lex ≥ FUZZY_THRESHOLD then ("Standard", 9/10, "lexical_high", steps)
          else
            let sbert_sim := E.sbert_score c_raw t.raw_text
            let steps := steps ++
              [⟨"semantic_sbert", decide (sbert_sim ≥ SBERT_THRESHOLD), some sbert_sim, "SBERT cosine"⟩]
            if sbert_sim ≥ SBERT_THRESHOLD then ("Standard", 85/100, "semantic_high", steps)
            else if SBERT_AMBIG_LOW ≤ sbert_sim ∧ sbert_sim < SBERT_AMBIG_HIGH then
              let steps := steps ++
                [⟨"semantic_ambiguous_band", true, some sbert_sim, "SBERT score in ambiguous range; needs review."⟩]
              ("Ambiguous", sbert_sim, "semantic_ambiguous", steps)
            else nb_tail E c_raw t sbert_sim steps

/-- One entry of the ranked list built by choose_best_template: the tuple
(tpl_name, label, score, rule, steps). -/
structure Ranked where
  tpl_name : String
  label : String
  score : ℚ
  rule : String
  steps : List StepResult
deriving DecidableEq

/-- The label priority dictionary of the score_key closure: Standard 3,
Ambiguous 2, Non-Standard 1, anything else 0. -/
def labelPriority (label : String) : ℕ :=
  if label == "Standard" then 3
  else if label == "Ambiguous" then 2
  else if label == "Non-Standard" then 1
  else 0

/-- score_key of choose_best_template: the pair (priority, score). -/
def scoreKey (r : Ranked) : ℕ × ℚ := (labelPriority r.label, r.score)

/-- Lexicographic order on the (priority, score) keys, as Python compares
tuples. -/
def keyLeB (a b : ℕ × ℚ) : Bool :=
  decide (a.1 < b.1) || (decide (a.1 = b.1) && decide (a.2 ≤ b.2))

/-- Packaging of a cascade result as a ranked entry. -/
def mkRanked (name : String) (r : CResult) : Ranked :=
  ⟨name, r.1, r.2.1, r.2.2.1, r.2.2.2⟩

/-- The tuple returned by choose_best_template when the attribute has no
matching template: label Skip with rule no_template. -/
def no_template_ranked : Ranked := ⟨"No_Template", "Skip", 0, "no_template", []⟩

/-- choose_best_template of the notebook: the ranked pairs are sorted by
(label priority, score) descending, exactly as sorted with key score_key
and reverse True, and the first element is returned; the headD default is
never reached on a nonempty list. -/
def choose_best_template (E : Engines) (clause : NBClause)
    (templates : List TemplateClause) (target : String) : Ranked :=
  let matching := templates.filter (fun t => t.attr == target)
  if matching.isEmpty then no_template_ranked
  else
    let ranked := matching.map (fun t => mkRanked t.name (classify_against_template E clause t))
    (ranked.mergeSort (fun a b => keyLeB (scoreKey b) (scoreKey a))).headD no_template_ranked

end NB

/-! Concrete fixtures for witnesses and counterexamples.  Engine records
instantiate the opaque scoring primitives with conformant values (a
lexical ratio inside [0, 100], an SBERT cosine inside [-1, 1]); templates
are concrete TemplateClause records passed to the dependency-injected
classifier functions. -/

/-- Worker engines: lexical ratio constantly 0; SBERT model absent. -/
def Ez : Spacy.Engines := ⟨fun _ _ => 0, id, none⟩

/-- Worker engines: lexical ratio constantly 0; SBERT cosine constantly
0.65 (inside the ambiguous band). -/
def E4w : Spacy.Engines := ⟨fun _ _ => 0, id, some (fun _ _ => some (13/20))⟩

/-- Worker engines: lexical ratio constantly 0; the SBERT encode call
raises on every input (inner none). -/
def E7c : Spacy.Engines := ⟨fun _ _ => 0, id, some (fun _ _ => none)⟩

/-- Worker engines: lexical ratio constantly 50; SBERT cosine constantly
0.8 (above the semantic threshold). -/
def E1c : Spacy.Engines := ⟨fun _ _ => 50, id, some (fun _ _ => some (4/5))⟩

/-- Notebook engines with every signal low and the cross encoder off. -/
def NEz : NB.Engines := ⟨fun _ _ => 0, false, fun _ _ => none, fun _ _ => 0, id, fun _ _ => false⟩

/-- Notebook engines with SBERT cosine constantly 0.7 (inside the
ambiguous band of the notebook configuration). -/
def NE4 : NB.Engines := ⟨fun _ _ => 7/10, false, fun _ _ => none, fun _ _ => 0, id, fun _ _ => false⟩

/-- A template for attribute A whose normalized text matches nothing used
in the fixtures. -/
def tplA : TemplateClause := ⟨"TplFirst", "A", "zzz yyy", "zzz yyy", false⟩

/-- A second template for attribute A whose normalized text equals the
fixture clause text. -/
def tplB : TemplateClause := ⟨"TplSecond", "A", "payment clause alpha", "payment clause alpha", false⟩

/-- A small template used by the cascade fixtures. -/
def t4 : TemplateClause := ⟨"T4", "A", "beta", "beta", false⟩

/-- A small template used by the degraded-engine fixtures. -/
def t7 : TemplateClause := ⟨"T7", "A", "gamma delta", "gamma delta", false⟩

/-- The No Steerage/SOC template text of TN_TEMPLATE_CLAUSES in
worker/classification_parameters.py, as a template record whose flag and
normalized form follow the spec description of the template store. -/
def steerage_tpl : TemplateClause :=
  ⟨"TN_No_Steerage_SOC", "No Steerage/SOC",
   "Provider shall be eligible to participate only in those Networks designated on the Provider Networks Attachment",
   pyLower "Provider shall be eligible to participate only in those Networks designated on the Provider Networks Attachment",
   false⟩

/-- Template for the Medicaid Timely Filing attribute in the summary
counterexample. -/
def tpl8a : TemplateClause := ⟨"TplMedicaidTF", "Medicaid Timely Filing", "template text a", "template text a", false⟩

/-- Template for the Medicare Timely Filing attribute in the summary
counterexample. -/
def tpl8b : TemplateClause := ⟨"TplMedicareTF", "Medicare Timely Filing", "template text b", "template text b", false⟩

/-- A template with exception wording (flag true) used by the selection
counterexample. -/
def tpl1std : TemplateClause := ⟨"T2std", "Medicaid Timely Filing", "raw two", "norm two", true⟩

/-- A template without exception wording used by the selection
counterexample. -/
def tpl1exc : TemplateClause := ⟨"T1exc", "Medicaid Timely Filing", "raw one", "norm one", false⟩

/-- Clause fixture for the selection counterexample: its text carries the
exception token unless. -/
def c1c : ClauseDict := ⟨1, "pay unless agreed", none⟩

/-- Clause fixture matching both timely-filing attribute pattern sets. -/
def c8 : ClauseDict := ⟨1, "medicaid filing and medicare filing", none⟩

/-- Clause fixture with no detected attribute. -/
def c6w : ClauseDict := ⟨3, "plain text segment", none⟩

/-- Clause fixture whose normalized text equals the tplB template. -/
def c10 : ClauseDict := ⟨2, "payment clause alpha", none⟩

/-- Clause fixture for the missing-template counterexample. -/
def c5 : ClauseDict := ⟨4, "sample clause", none⟩

/-- Clause fixture with empty text. -/
def c9e : ClauseDict := ⟨5, "", none⟩

/-- Notebook clause fixture for the ambiguous-band witness. -/
def nbc4 : NB.NBClause := ⟨1, "alpha", some "alpha"⟩

/-- Notebook clause fixture for the selection witness. -/
def nbc1 : NB.NBClause := ⟨1, "payment clause alpha", some "payment clause alpha"⟩

/-- Trivial matcher instantiation for ClassificationEngine fixtures. -/
def m9 : Engine.Matcher :=
  ⟨fun _ _ => ⟨0, 0⟩, fun _ _ => false, fun _ _ => [], fun _ _ _ => "no_match"⟩

namespace Spacy

lemma mad_label (clause_text : String) (fz : ℚ) (steps : List StepResult) :
    (methodology_and_default clause_text fz steps).1 = "Non-Standard" := by
  simp only [methodology_and_default]
  split_ifs <;> rfl

lemma mad_score_nonneg (clause_text : String) (fz : ℚ) (steps : List StepResult) :
    0 ≤ (methodology_and_default clause_text fz steps).2.1 := by
  simp only [methodology_and_default]
  split_ifs with h1 h2
  · norm_num
  · exact div_nonneg h2.le (by norm_num)
  · norm_num

lemma mad_steps_mono (clause_text : String) (fz : ℚ) (steps : List StepResult)
    (st : StepResult) (hst : st ∈ steps) :
    st ∈ (methodology_and_default clause_text fz steps).2.2.2 := by
  simp only [methodology_and_default]
  split_ifs <;> simp [List.mem_append, hst]

lemma cat_label_cases (E : Engines) (ct cn : String) (t : TemplateClause) :
    (classify_against_template E ct cn t).1 = "Non-Standard" ∨
    (classify_against_template E ct cn t).1 = "Standard" ∨
    (classify_against_template E ct cn t).1 = "Ambiguous" := by
  rcases hm : E.sbertModel with _ | model <;>
    simp only [classify_against_template, hm] <;>
    split_ifs <;> simp [mad_label]

lemma cat_score_nonneg (E : Engines) (ct cn : String) (t : TemplateClause) :
    0 ≤ (classify_against_template E ct cn t).2.1 := by
  rcases hm : E.sbertModel with _ | model <;>
    simp only [classify_against_template, hm] <;>
    split_ifs
  any_goals norm_num
  any_goals exact mad_score_nonneg _ _ _
  all_goals rename_i hband
  all_goals exact le_trans (show (0:ℚ) ≤ sbert_ambig_low by norm_num [sbert_ambig_low]) hband.1

lemma cat_ambiguous_bounds (E : Engines) (ct cn : String) (t : TemplateClause) :
    (classify_against_template E ct cn t).1 = "Ambiguous" →
    sbert_ambig_low ≤ (classify_against_template E ct cn t).2.1 ∧
      (classify_against_template E ct cn t).2.1 < sbert_threshold := by
  rcases hm : E.sbertModel with _ | model <;>
    simp only [classify_against_template, hm] <;>
    split_ifs <;> intro h
  all_goals
    first
      | (rename_i hband
         exact ⟨hband.1, by simpa [sbert_threshold, sbert_ambig_high] using hband.2⟩)
      | (rw [mad_label] at h; simp at h)
      | simp at h

lemma select_best_some (E : Engines) (ct cn : String) :
    ∀ (ts : List TemplateClause) (r : CResult) (s : ℚ),
      ((select_best E ct cn ts (some r, s)).1).isSome
  | [], r, s => by simp [select_best]
  | t :: ts, r, s => by
    simp only [select_best]
    split_ifs
    · exact select_best_some E ct cn ts _ _
    · exact select_best_some E ct cn ts r s

lemma select_best_cons_start (E : Engines) (ct cn : String) (t0 : TemplateClause)
    (rest : List TemplateClause) :
    ((select_best E ct cn (t0 :: rest) (none, -1)).1).isSome := by
  have h0 : (classify_against_template E ct cn t0).2.1 > (-1 : ℚ) :=
    lt_of_lt_of_le (by norm_num) (cat_score_nonneg E ct cn t0)
  simp only [select_best]
  split_ifs
  exact select_best_some E ct cn rest _ _

lemma select_best_prop (P : CResult → Prop) (E : Engines) (ct cn : String)
    (hA : ∀ t : TemplateClause, P (classify_against_template E ct cn t)) :
    ∀ (ts : List TemplateClause) (acc : Option CResult × ℚ),
      (∀ r, acc.1 = some r → P r) →
      ∀ r, (select_best E ct cn ts acc).1 = some r → P r
  | [], _, hacc, r, hr => hacc r hr
  | t :: ts, acc, hacc, r, hr => by
    simp only [select_best] at hr
    split_ifs at hr
    · refine select_best_prop P E ct cn hA ts _ ?_ r hr
      rintro r2 hr2
      simp only [Option.some.injEq] at hr2
      exact hr2 ▸ hA t
    · exact select_best_prop P E ct cn hA ts acc hacc r hr

lemma select_best_max (E : Engines) (ct cn : String) :
    ∀ (ts : List TemplateClause) (acc : Option CResult × ℚ),
      (∀ r, acc.1 = some r → acc.2 = r.2.1) →
      acc.2 ≤ (select_best E ct cn ts acc).2 ∧
      (∀ t ∈ ts, (classify_against_template E ct cn t).2.1 ≤ (select_best E ct cn ts acc).2) ∧
      (∀ r, (select_best E ct cn ts acc).1 = some r →
        (select_best E ct cn ts acc).2 = r.2.1)
  | [], acc, hacc => by
    refine ⟨le_refl _, ?_, ?_⟩
    · intro t ht; exact absurd ht (List.not_mem_nil t)
    · simpa [select_best] using hacc
  | t :: ts, acc, hacc => by
    simp only [select_best]
    split_ifs with h
    · have hrec := select_best_max E ct cn ts
        (some (classify_against_template E ct cn t), (classify_against_template E ct cn t).2.1)
        (by rintro r2 hr2; simp only [Option.some.injEq] at hr2; rw [hr2])
      refine ⟨le_trans (le_of_lt h) hrec.1, ?_, hrec.2.2⟩
      intro t2 ht2
      rcases List.mem_cons.mp ht2 with rfl | ht2
      · exact hrec.1
      · exact hrec.2.1 t2 ht2
    · have hrec := select_best_max E ct cn ts acc hacc
      refine ⟨hrec.1, ?_, hrec.2.2⟩
      intro t2 ht2
      rcases List.mem_cons.mp ht2 with rfl | ht2
      · exact le_trans (not_lt.mp h) hrec.1
      · exact hrec.2.1 t2 ht2

lemma ccfa_attr (E : Engines) (tpls : List TemplateClause) (c : ClauseDict) (a : String) :
    (classify_clause_for_attribute E tpls c a).attr = a := by
  simp only [classify_clause_for_attribute]
  split
  · rfl
  · split <;> rfl

lemma ccfa_label_cases (E : Engines) (tpls : List TemplateClause) (c : ClauseDict) (a : String) :
    (classify_clause_for_attribute E tpls c a).label = "Non-Standard" ∨
    (classify_clause_for_attribute E tpls c a).label = "Standard" ∨
    (classify_clause_for_attribute E tpls c a).label = "Ambiguous" := by
  simp only [classify_clause_for_attribute]
  split
  · left; rfl
  · split
    · rename_i r hr
      exact select_best_prop
        (fun r => r.1 = "Non-Standard" ∨ r.1 = "Standard" ∨ r.1 = "Ambiguous")
        E _ _ (fun t => cat_label_cases E _ _ t) _ _ (by rintro r2 h2; cases h2) r hr
    · left; rfl

lemma ccfa_label_ne_skip (E : Engines) (tpls : List TemplateClause) (c : ClauseDict) (a : String) :
    (classify_clause_for_attribute E tpls c a).label ≠ "Skip" := by
  rcases ccfa_label_cases E tpls c a with h | h | h <;> rw [h] <;> decide

lemma mem_classify_clauses (E : Engines) (tpls : List TemplateClause)
    (clauses : List ClauseDict) (d : ClassificationDecision) :
    d ∈ classify_clauses E tpls clauses ↔
      ∃ c ∈ clauses,
        if (detect_attributes c.text).isEmpty then d = skip_decision c
        else ∃ a ∈ detect_attributes c.text, d = classify_clause_for_attribute E tpls c a := by
  unfold classify_clauses
  rw [List.mem_flatMap]
  refine exists_congr fun c => and_congr_right fun _ => ?_
  split_ifs with h
  · simp [h]
  · simp [h, List.mem_map, eq_comm]

lemma detect_mem_ne_empty (txt a : String) (h : a ∈ detect_attributes txt) : a ≠ "" := by
  unfold detect_attributes at h
  rw [List.mem_filterMap] at h
  obtain ⟨ap, hap, hax⟩ := h
  split_ifs at hax
  simp only [Option.some.injEq] at hax
  subst hax
  fin_cases hap <;> decide

lemma skip_mem_classify_clauses (E : Engines) (tpls : List TemplateClause)
    (clauses : List ClauseDict) (c : ClauseDict) (hc : c ∈ clauses)
    (hd : detect_attributes c.text = []) :
    skip_decision c ∈ classify_clauses E tpls clauses := by
  rw [mem_classify_clauses]
  exact ⟨c, hc, by simp [hd]⟩

lemma cc_label_iff_attr (E : Engines) (tpls : List TemplateClause)
    (clauses : List ClauseDict) (d : ClassificationDecision)
    (hd : d ∈ classify_clauses E tpls clauses) :
    d.label = "Skip" ↔ d.attr = "" := by
  rw [mem_classify_clauses] at hd
  obtain ⟨c, _, hc⟩ := hd
  split_ifs at hc with h
  · subst hc
    simp [skip_decision]
  · obtain ⟨a, ha, rfl⟩ := hc
    constructor
    · intro hl
      exact absurd hl (ccfa_label_ne_skip E tpls c a)
    · intro hl
      rw [ccfa_attr] at hl
      exact absurd hl (detect_mem_ne_empty c.text a ha)

lemma cc_label_four (E : Engines) (tpls : List TemplateClause)
    (clauses : List ClauseDict) (d : ClassificationDecision)
    (hd : d ∈ classify_clauses E tpls clauses) :
    d.label = "Skip" ∨ d.label = "Standard" ∨ d.label = "Non-Standard" ∨
      d.label = "Ambiguous" := by
  rw [mem_classify_clauses] at hd
  obtain ⟨c, _, hc⟩ := hd
  split_ifs at hc with h
  · subst hc; left; rfl
  · obtain ⟨a, _, rfl⟩ := hc
    rcases ccfa_label_cases E tpls c a with h2 | h2 | h2
    · exact Or.inr (Or.inr (Or.inl h2))
    · exact Or.inr (Or.inl h2)
    · exact Or.inr (Or.inr (Or.inr h2))

lemma skip_count_eq (E : Engines) (tpls : List TemplateClause) :
    ∀ clauses : List ClauseDict,
      ((classify_clauses E tpls clauses).filter (fun d => d.label == "Skip")).length
        = (clauses.filter (fun c => (detect_attributes c.text).isEmpty)).length
  | [] => rfl
  | c :: cs => by
    have ih := skip_count_eq E tpls cs
    have hcc : classify_clauses E tpls (c :: cs)
        = (if (detect_attributes c.text).isEmpty then [skip_decision c]
           else (detect_attributes c.text).map (fun a => classify_clause_for_attribute E tpls c a))
          ++ classify_clauses E tpls cs := by
      simp [classify_clauses]
    rw [hcc, List.filter_append, List.length_append, List.filter_cons]
    by_cases h : (detect_attributes c.text).isEmpty
    · rw [if_pos h, if_pos h]
      simp only [List.filter_cons, List.filter_nil, skip_decision, List.length_cons]
      simp [ih]
      omega
    · rw [if_neg h, if_neg h]
      have hz : (((detect_attributes c.text).map
          (fun a => classify_clause_for_attribute E tpls c a)).filter
            (fun d => d.label == "Skip")) = [] := by
        rw [List.filter_eq_nil_iff]
        intro d hdm
        rw [List.mem_map] at hdm
        obtain ⟨a, _, rfl⟩ := hdm
        simpa using ccfa_label_ne_skip E tpls c a
      rw [hz]
      simpa using ih

lemma count_three_labels :
    ∀ l : List ClassificationDecision,
      (∀ d ∈ l, d.label = "Standard" ∨ d.label = "Non-Standard" ∨ d.label = "Ambiguous") →
      (l.filter (fun d => d.label == "Standard")).length
        + (l.filter (fun d => d.label == "Non-Standard")).length
        + (l.filter (fun d => d.label == "Ambiguous")).length = l.length
  | [], _ => rfl
  | d :: ds, h => by
    have ih := count_three_labels ds (fun x hx => h x (List.mem_cons_of_mem d hx))
    have hd := h d (by simp)
    simp only [List.filter_cons, List.length_cons]
    rcases hd with h1 | h1 | h1 <;> rw [h1] <;> simp <;> omega

lemma count_valid_skip :
    ∀ l : List ClassificationDecision,
      (∀ d ∈ l, d.label = "Skip" ∨ d.label = "Standard" ∨ d.label = "Non-Standard" ∨
        d.label = "Ambiguous") →
      (l.filter (fun r => Stage2.valid_labels.contains r.label)).length
        + (l.filter (fun d => d.label == "Skip")).length = l.length
  | [], _ => rfl
  | d :: ds, h => by
    have ih := count_valid_skip ds (fun x hx => h x (List.mem_cons_of_mem d hx))
    have hd := h d (by simp)
    simp only [List.filter_cons, List.length_cons]
    rcases hd with h1 | h1 | h1 | h1 <;> rw [h1] <;>
      simp [Stage2.valid_labels] at ih ⊢ <;> omega

end Spacy

namespace NB

lemma nb_default_label (s : ℚ) (steps : List StepResult) :
    (nb_default s steps).1 = "Non-Standard" := rfl

lemma nb_tail_label_ne_ambiguous (E : Engines) (c_raw : String) (t : TemplateClause)
    (sbert_sim : ℚ) (steps : List StepResult) :
    (nb_tail E c_raw t sbert_sim steps).1 ≠ "Ambiguous" := by
  simp only [nb_tail]
  split_ifs <;> try (split <;> try split_ifs)
  all_goals simp [nb_default]

lemma nb_cat_ambiguous_bounds (E : Engines) (clause : NBClause) (t : TemplateClause) :
    (classify_against_template E clause t).1 = "Ambiguous" →
    SBERT_AMBIG_LOW ≤ (classify_against_template E clause t).2.1 ∧
      (classify_against_template E clause t).2.1 < SBERT_THRESHOLD := by
  simp only [classify_against_template]
  split_ifs <;> intro h
  all_goals
    first
      | (rename_i hband
         exact ⟨hband.1, by simpa [SBERT_THRESHOLD, SBERT_AMBIG_HIGH] using hband.2⟩)
      | (exact absurd h (nb_tail_label_ne_ambiguous _ _ _ _ _))
      | simp at h

lemma keyLeB_refl (a : ℕ × ℚ) : keyLeB a a = true := by simp [keyLeB]

lemma keyLeB_trans (a b c : ℕ × ℚ) (h1 : keyLeB a b = true) (h2 : keyLeB b c = true) :
    keyLeB a c = true := by
  simp only [keyLeB, Bool.or_eq_true, Bool.and_eq_true, decide_eq_true_eq] at *
  rcases h1 with h1 | ⟨e1, l1⟩ <;> rcases h2 with h2 | ⟨e2, l2⟩
  · exact Or.inl (h1.trans h2)
  · exact Or.inl (e2 ▸ h1)
  · exact Or.inl (e1 ▸ h2)
  · exact Or.inr ⟨e1.trans e2, l1.trans l2⟩

lemma keyLeB_total (a b : ℕ × ℚ) : (keyLeB a b || keyLeB b a) = true := by
  simp only [keyLeB, Bool.or_eq_true, Bool.and_eq_true, decide_eq_true_eq]
  rcases lt_trichotomy a.1 b.1 with h | h | h
  · exact Or.inl (Or.inl h)
  · rcases le_total a.2 b.2 with h2 | h2
    · exact Or.inl (Or.inr ⟨h, h2⟩)
    · exact Or.inr (Or.inr ⟨h.symm, h2⟩)
  · exact Or.inr (Or.inl h)

lemma nb_sorted_head_max (l : List Ranked) (d : Ranked) (x : Ranked) (hx : x ∈ l) :
    keyLeB (scoreKey x)
      (scoreKey ((l.mergeSort (fun a b => keyLeB (scoreKey b) (scoreKey a))).headD d))
      = true := by
  have hperm := List.mergeSort_perm l (fun a b : Ranked => keyLeB (scoreKey b) (scoreKey a))
  have hsorted := @List.sorted_mergeSort Ranked
    (fun a b : Ranked => keyLeB (scoreKey b) (scoreKey a))
    (fun a b c hab hbc => keyLeB_trans _ _ _ hbc hab)
    (fun a b => keyLeB_total (scoreKey b) (scoreKey a))
    l
  rcases hms : l.mergeSort (fun a b : Ranked => keyLeB (scoreKey b) (scoreKey a)) with _ | ⟨b, rest⟩
  · rw [hms] at hperm
    rw [hperm.symm.eq_nil] at hx
    exact absurd hx (List.not_mem_nil x)
  · rw [hms] at hperm hsorted
    simp only [List.headD_cons]
    rcases List.mem_cons.mp (hperm.mem_iff.mpr hx) with rfl | hx2
    · exact keyLeB_refl _
    · exact (List.pairwise_cons.mp hsorted).1 x hx2

lemma choose_best_template_max (E : Engines) (clause : NBClause)
    (tpls : List TemplateClause) (target : String) (m : TemplateClause)
    (ms : List TemplateClause)
    (hm : tpls.filter (fun t => t.attr == target) = m :: ms) :
    ∀ t ∈ m :: ms,
      keyLeB (scoreKey (mkRanked t.name (classify_against_template E clause t)))
        (scoreKey (choose_best_template E clause tpls target)) = true := by
  intro t ht
  simp only [choose_best_template]
  rw [hm]
  rw [if_neg (by simp)]
  exact nb_sorted_head_max _ _ _ (List.mem_map_of_mem _ ht)

lemma choose_best_template_empty (E : Engines) (clause : NBClause)
    (tpls : List TemplateClause) (target : String)
    (hm : tpls.filter (fun t => t.attr == target) = []) :
    choose_best_template E clause tpls target = no_template_ranked := by
  simp only [choose_best_template]
  rw [hm]
  simp

end NB

/-- Claim C2: whenever the clause text contains a conditional-language
token and the template flag has_override_language (has_exception_tokens in
the code) is false, the cascade returns Non-Standard with rule
new_condition and confidence 0.90, before any similarity signal is
consulted; this holds for the worker cascade and for the notebook cascade,
for every choice of the similarity engines. -/
theorem claim2_theorem :
    (∀ (E : Spacy.Engines) (ct cn : String) (t : TemplateClause),
      t.has_exception_tokens = false →
      EXCEPTION_TOKENS.any (fun tok => strIn tok (pyLower ct)) = true →
      Spacy.classify_against_template E ct cn t =
        ("Non-Standard", 9/10, "new_condition",
          [⟨"exception_check", true, none, "Detected conditional/exception tokens"⟩])) ∧
    (∀ (E : NB.Engines) (c : NB.NBClause) (t : TemplateClause),
      t.has_exception_tokens = false →
      EXCEPTION_TOKENS.any (fun tok => strIn tok (NB.to_ascii_lower c.text)) = true →
      NB.classify_against_template E c t =
        ("Non-Standard", 9/10, "new_condition",
          [⟨"exception_check", true, none,
            "Detected conditional/exception tokens in clause; template lacks them."⟩])) := by
  constructor
  · intro E ct cn t hflag htok
    have hexc : Spacy.contains_exception_tokens ct t.has_exception_tokens = true := by
      simp [Spacy.contains_exception_tokens, hflag, htok]
    simp [Spacy.classify_against_template, hexc]
  · intro E c t hflag htok
    have hexc : NB.contains_exception_tokens c.text t.has_exception_tokens = true := by
      simp [NB.contains_exception_tokens, hflag, htok]
    simp [NB.classify_against_template, hexc]

/-- Witness for C2 at a concrete input: the TN No Steerage template text
extended by the words unless otherwise agreed is classified Non-Standard
with rule new_condition by the worker cascade. -/
theorem claim2_witness :
    steerage_tpl.has_exception_tokens = false ∧
    EXCEPTION_TOKENS.any
      (fun tok => strIn tok (pyLower (steerage_tpl.raw_text ++ " unless otherwise agreed"))) = true ∧
    Spacy.classify_against_template Ez (steerage_tpl.raw_text ++ " unless otherwise agreed")
        "x" steerage_tpl =
      ("Non-Standard", 9/10, "new_condition",
        [⟨"exception_check", true, none, "Detected conditional/exception tokens"⟩]) :=
  ⟨by decide, by decide,
   claim2_theorem.1 Ez (steerage_tpl.raw_text ++ " unless otherwise agreed") "x" steerage_tpl
     (by decide) (by decide)⟩

/-- Claim C3: an exact normalized match (with no earlier rule firing)
yields Standard with confidence 0.99 and rule exact_norm; in particular a
clause whose raw text equals the template raw text is classified Standard
with rule exact_norm and score at least 0.95, for every template whose
stored flag and normalized text are computed from its raw text by the
shared token scan and normalizer (the worker template construction is
missing from the sources; that well-formedness is the spec description of
the template store).  The third conjunct is the notebook cascade. -/
theorem claim3_theorem :
    (∀ (E : Spacy.Engines) (ct cn : String) (t : TemplateClause),
      Spacy.contains_exception_tokens ct t.has_exception_tokens = false →
      cn = t.norm_text →
      Spacy.classify_against_template E ct cn t =
        ("Standard", 99/100, "exact_norm",
          [⟨"exception_check", false, none, "Detected conditional/exception tokens"⟩,
           ⟨"exact_normalized_match", true, none, "Exact match after normalization"⟩])) ∧
    (∀ (E : Spacy.Engines) (normalize : String → String) (t : TemplateClause),
      t.has_exception_tokens = Spacy.contains_exception_tokens t.raw_text false →
      t.norm_text = normalize t.raw_text →
      (Spacy.classify_against_template E t.raw_text (normalize t.raw_text) t).1 = "Standard" ∧
      (Spacy.classify_against_template E t.raw_text (normalize t.raw_text) t).2.2.1 = "exact_norm" ∧
      (95:ℚ)/100 ≤ (Spacy.classify_against_template E t.raw_text (normalize t.raw_text) t).2.1) ∧
    (∀ (E : NB.Engines) (c : NB.NBClause) (t : TemplateClause),
      NB.contains_exception_tokens c.text t.has_exception_tokens = false →
      c.norm.getD (pyLower c.text) = t.norm_text →
      (NB.classify_against_template E c t).1 = "Standard" ∧
      (NB.classify_against_template E c t).2.2.1 = "exact_norm" ∧
      (NB.classify_against_template E c t).2.1 = 99/100) := by
  have hpart1 : ∀ (E : Spacy.Engines) (ct cn : String) (t : TemplateClause),
      Spacy.contains_exception_tokens ct t.has_exception_tokens = false →
      cn = t.norm_text →
      Spacy.classify_against_template E ct cn t =
        ("Standard", 99/100, "exact_norm",
          [⟨"exception_check", false, none, "Detected conditional/exception tokens"⟩,
           ⟨"exact_normalized_match", true, none, "Exact match after normalization"⟩]) := by
    intro E ct cn t hexc hnorm
    have hbeq : (cn == t.norm_text) = true := by rw [hnorm]; simp
    simp [Spacy.classify_against_template, hexc, hbeq]
  refine ⟨hpart1, ?_, ?_⟩
  · intro E normalize t hflag hnorm
    have hexc : Spacy.contains_exception_tokens t.raw_text t.has_exception_tokens = false := by
      cases hb : t.has_exception_tokens with
      | true => simp [Spacy.contains_exception_tokens]
      | false =>
        rw [hb] at hflag
        exact hflag.symm
    rw [hpart1 E t.raw_text (normalize t.raw_text) t hexc hnorm.symm]
    refine ⟨rfl, rfl, by norm_num⟩
  · intro E c t hexc hnorm
    have hbeq : (c.norm.getD (pyLower c.text) == t.norm_text) = true := by rw [hnorm]; simp
    simp [NB.classify_against_template, hexc, hbeq]

/-- Witness for C3 at a concrete input: a template whose normalized text
is the lowercasing of its raw text and whose flag is computed from its raw
text; classifying the raw text itself yields Standard with rule exact_norm
and score 0.99. -/
theorem claim3_witness :
    ((⟨"T3", "A", "Sample clause text.", pyLower "Sample clause text.", false⟩ :
        TemplateClause).has_exception_tokens
      = Spacy.contains_exception_tokens
          (⟨"T3", "A", "Sample clause text.", pyLower "Sample clause text.", false⟩ :
            TemplateClause).raw_text false) ∧
    ((Spacy.classify_against_template Ez "Sample clause text." (pyLower "Sample clause text.")
        ⟨"T3", "A", "Sample clause text.", pyLower "Sample clause text.", false⟩).1 = "Standard" ∧
     (Spacy.classify_against_template Ez "Sample clause text." (pyLower "Sample clause text.")
        ⟨"T3", "A", "Sample clause text.", pyLower "Sample clause text.", false⟩).2.2.1 = "exact_norm" ∧
     (95:ℚ)/100 ≤ (Spacy.classify_against_template Ez "Sample clause text."
        (pyLower "Sample clause text.")
        ⟨"T3", "A", "Sample clause text.", pyLower "Sample clause text.", false⟩).2.1) :=
  ⟨by decide,
   claim3_theorem.2.1 Ez pyLower
     ⟨"T3", "A", "Sample clause text.", pyLower "Sample clause text.", false⟩
     (by decide) rfl⟩

/-- Claim C4: no decision of either cascade carries label Ambiguous with a
score at or above the Standard semantic threshold of its configuration, or
below the ambiguous lower bound; the ambiguous band lies strictly below
the semantic threshold. -/
theorem claim4_theorem :
    (∀ (E : Spacy.Engines) (ct cn : String) (t : TemplateClause),
      (Spacy.classify_against_template E ct cn t).1 = "Ambiguous" →
      Spacy.sbert_ambig_low ≤ (Spacy.classify_against_template E ct cn t).2.1 ∧
        (Spacy.classify_against_template E ct cn t).2.1 < Spacy.sbert_threshold) ∧
    (∀ (E : NB.Engines) (c : NB.NBClause) (t : TemplateClause),
      (NB.classify_against_template E c t).1 = "Ambiguous" →
      NB.SBERT_AMBIG_LOW ≤ (NB.classify_against_template E c t).2.1 ∧
        (NB.classify_against_template E c t).2.1 < NB.SBERT_THRESHOLD) :=
  ⟨fun E ct cn t => Spacy.cat_ambiguous_bounds E ct cn t,
   fun E c t => NB.nb_cat_ambiguous_bounds E c t⟩

/-- Witness for C4: with an SBERT cosine of 0.65 the worker cascade and,
with 0.70, the notebook cascade reach the ambiguous band, and the bounds
of the claim hold at those decisions. -/
theorem claim4_witness :
    (Spacy.classify_against_template E4w "alpha" "alpha" t4).1 = "Ambiguous" ∧
    (Spacy.sbert_ambig_low ≤ (Spacy.classify_against_template E4w "alpha" "alpha" t4).2.1 ∧
      (Spacy.classify_against_template E4w "alpha" "alpha" t4).2.1 < Spacy.sbert_threshold) ∧
    (NB.classify_against_template NE4 nbc4 t4).1 = "Ambiguous" ∧
    (NB.SBERT_AMBIG_LOW ≤ (NB.classify_against_template NE4 nbc4 t4).2.1 ∧
      (NB.classify_against_template NE4 nbc4 t4).2.1 < NB.SBERT_THRESHOLD) := by
  have hexc : Spacy.contains_exception_tokens "alpha" false = false := by decide
  have hbeq : (("alpha" : String) == t4.norm_text) = false := by decide
  have h1 : (Spacy.classify_against_template E4w "alpha" "alpha" t4).1 = "Ambiguous" := by
    simp [Spacy.classify_against_template, hexc, hbeq, E4w, t4,
      Spacy.check_placeholder_substitution, Spacy.compute_sbert_similarity,
      Spacy.fuzzy_threshold, Spacy.sbert_threshold, Spacy.sbert_ambig_low,
      Spacy.sbert_ambig_high]
    norm_num
  have hexc2 : NB.contains_exception_tokens "alpha" false = false := by decide
  have hbeq2 : (nbc4.norm.getD (pyLower nbc4.text) == t4.norm_text) = false := by decide
  have h2 : (NB.classify_against_template NE4 nbc4 t4).1 = "Ambiguous" := by
    simp [NB.classify_against_template, hexc2, hbeq2, NE4, t4, nbc4,
      NB.check_placeholder_substitution, NB.check_key_verbs_preserved,
      NB.FUZZY_THRESHOLD, NB.SBERT_THRESHOLD, NB.SBERT_AMBIG_LOW, NB.SBERT_AMBIG_HIGH]
    norm_num
  exact ⟨h1, claim4_theorem.1 E4w "alpha" "alpha" t4 h1, h2, claim4_theorem.2 NE4 nbc4 t4 h2⟩

/-- Counterexample to C5: with no template stored for the attribute, the
worker per-attribute classifier returns an ordinary runtime classification
outcome: a Non-Standard decision with rule no_template_found and score 0,
and the notebook choose_best_template returns a Skip tuple with rule
no_template; neither raises. -/
theorem claim5_counterexample :
    (Spacy.classify_clause_for_attribute Ez [] c5 "Medicaid Timely Filing").label
      = "Non-Standard" ∧
    (Spacy.classify_clause_for_attribute Ez [] c5 "Medicaid Timely Filing").rule
      = "no_template_found" ∧
    (Spacy.classify_clause_for_attribute Ez [] c5 "Medicaid Timely Filing").score = 0 ∧
    NB.choose_best_template NEz ⟨4, "sample clause", none⟩ [] "Medicaid Timely Filing"
      = NB.no_template_ranked :=
  ⟨rfl, rfl, rfl, rfl⟩

/-- Claim C5 as amended: a missing template is not a raised configuration
error; the worker classifier returns a Non-Standard decision with rule
no_template_found and score 0, and the notebook selector returns the Skip
tuple with rule no_template. -/
theorem claim5_amended :
    (∀ (E : Spacy.Engines) (tpls : List TemplateClause) (c : ClauseDict) (a : String),
      tpls.filter (fun t => t.attr == a) = [] →
      Spacy.classify_clause_for_attribute E tpls c a =
        { clause_id := c.clause_id, attr := a, template_used := "", label := "Non-Standard",
          score := 0, rule := "no_template_found", text := c.text, steps := [] }) ∧
    (∀ (E : NB.Engines) (c : NB.NBClause) (tpls : List TemplateClause) (target : String),
      tpls.filter (fun t => t.attr == target) = [] →
      NB.choose_best_template E c tpls target = NB.no_template_ranked) := by
  constructor
  · intro E tpls c a hf
    simp [Spacy.classify_clause_for_attribute, hf]
  · intro E c tpls target hf
    exact NB.choose_best_template_empty E c tpls target hf

/-- Witness for the amended C5 at a concrete input. -/
theorem claim5_witness :
    ([] : List TemplateClause).filter (fun t => t.attr == "Medicaid Timely Filing") = [] ∧
    Spacy.classify_clause_for_attribute Ez [] c5 "Medicaid Timely Filing" =
      { clause_id := 4, attr := "Medicaid Timely Filing", template_used := "",
        label := "Non-Standard", score := 0, rule := "no_template_found",
        text := "sample clause", steps := [] } ∧
    NB.choose_best_template NEz ⟨4, "sample clause", none⟩ [] "Medicaid Timely Filing"
      = NB.no_template_ranked :=
  ⟨rfl, claim5_amended.1 Ez [] c5 "Medicaid Timely Filing" rfl,
   claim5_amended.2 NEz ⟨4, "sample clause", none⟩ [] "Medicaid Timely Filing" rfl⟩

/-- Claim C6: in every decision list produced by the worker pipeline, a
decision has label Skip exactly when its attribute field is empty (the
source encoding of a null attribute), and every clause matching no target
attribute is recorded as a Skip decision with rule no_target_attribute
rather than dropped. -/
theorem claim6_theorem (E : Spacy.Engines) (tpls : List TemplateClause)
    (clauses : List ClauseDict) :
    (∀ d ∈ Spacy.classify_clauses E tpls clauses, (d.label = "Skip" ↔ d.attr = "")) ∧
    (∀ c ∈ clauses, Spacy.detect_attributes c.text = [] →
      Spacy.skip_decision c ∈ Spacy.classify_clauses E tpls clauses) :=
  ⟨fun d hd => Spacy.cc_label_iff_attr E tpls clauses d hd,
   fun c hc hdet => Spacy.skip_mem_classify_clauses E tpls clauses c hc hdet⟩

/-- Witness for C6 at a concrete run with one undetected clause. -/
theorem claim6_witness :
    c6w ∈ [c6w] ∧ Spacy.detect_attributes c6w.text = [] ∧
    Spacy.skip_decision c6w ∈ Spacy.classify_clauses Ez [] [c6w] ∧
    ((Spacy.skip_decision c6w).label = "Skip" ↔ (Spacy.skip_decision c6w).attr = "") := by
  have hc : c6w ∈ [c6w] := by simp
  have hdet : Spacy.detect_attributes c6w.text = [] := by decide
  have hmem := (claim6_theorem Ez [] [c6w]).2 c6w hc hdet
  exact ⟨hc, hdet, hmem, (claim6_theorem Ez [] [c6w]).1 _ hmem⟩

/-- Claim C10: whenever at least one template exists for the attribute,
the decision returned by the worker per-attribute classifier reports
template_used equal to the name of the first template of the filtered
list, whatever template produced the winning result. -/
theorem claim10_theorem (E : Spacy.Engines) (tpls : List TemplateClause) (c : ClauseDict)
    (a : String) (t0 : TemplateClause) (rest : List TemplateClause)
    (hf : tpls.filter (fun t => t.attr == a) = t0 :: rest) :
    (Spacy.classify_clause_for_attribute E tpls c a).template_used = t0.name := by
  simp only [Spacy.classify_clause_for_attribute, hf]
  rcases hs : (Spacy.select_best E c.text (c.norm_text.getD (pyLower c.text))
      (t0 :: rest) (none, -1)).1 with _ | r
  · have hsome := Spacy.select_best_cons_start E c.text (c.norm_text.getD (pyLower c.text)) t0 rest
    rw [hs] at hsome
    simp at hsome
  · simp [hs]

/-- Witness for C10: two templates for attribute A; the second one matches
the clause exactly (label Standard) while the first does not, yet the
decision reports the name of the first template. -/
theorem claim10_witness :
    ([tplA, tplB].filter (fun t => t.attr == "A") = tplA :: [tplB]) ∧
    (Spacy.classify_clause_for_attribute Ez [tplA, tplB] c10 "A").template_used = "TplFirst" ∧
    (Spacy.classify_against_template Ez "payment clause alpha" "payment clause alpha" tplB).1
      = "Standard" ∧
    (Spacy.classify_against_template Ez "payment clause alpha" "payment clause alpha" tplA).1
      = "Non-Standard" := by
  have hf : [tplA, tplB].filter (fun t => t.attr == "A") = tplA :: [tplB] := by decide
  have hexc : Spacy.contains_exception_tokens "payment clause alpha" false = false := by decide
  have hbeqB : (("payment clause alpha" : String) == "payment clause alpha") = true := by decide
  have hbeqA : (("payment clause alpha" : String) == "zzz yyy") = false := by decide
  have hmeth : Spacy.detect_methodology_reference "payment clause alpha" = false := by decide
  refine ⟨hf, ?_, ?_, ?_⟩
  · exact claim10_theorem Ez [tplA, tplB] c10 "A" tplA [tplB] hf
  · simp [Spacy.classify_against_template, tplB, hexc, hbeqB]
  · simp [Spacy.classify_against_template, Spacy.methodology_and_default, tplA, Ez, hexc,
      hbeqA, hmeth, Spacy.check_placeholder_substitution, Spacy.fuzzy_threshold]
    norm_num

/-- Counterexample to C1: the worker selector keeps the pair with the
strictly greatest raw score and ignores label priority.  With one template
producing Non-Standard new_condition at 0.90 and another producing
Standard semantic_high at 0.85 for the same attribute, the returned
decision is the Non-Standard one although a Standard pair exists, so the
selection is not maximal under (label priority, score). -/
theorem claim1_counterexample :
    (Spacy.classify_against_template E1c "pay unless agreed" "pay unless agreed" tpl1std).1
      = "Standard" ∧
    (Spacy.classify_clause_for_attribute E1c [tpl1exc, tpl1std] c1c "Medicaid Timely Filing").label
      = "Non-Standard" ∧
    (Spacy.classify_clause_for_attribute E1c [tpl1exc, tpl1std] c1c "Medicaid Timely Filing").rule
      = "new_condition" := by
  have hpl : pyLower "pay unless agreed" = "pay unless agreed" := by decide
  have hexcF : Spacy.contains_exception_tokens "pay unless agreed" false = true := by decide
  have hexcT : Spacy.contains_exception_tokens "pay unless agreed" true = false := rfl
  have hb1 : (("pay unless agreed" : String) == "norm two") = false := by decide
  have hcatE : Spacy.classify_against_template E1c "pay unless agreed" "pay unless agreed" tpl1exc
      = ("Non-Standard", 9/10, "new_condition",
          [⟨"exception_check", true, none, "Detected conditional/exception tokens"⟩]) := by
    simp [Spacy.classify_against_template, tpl1exc, hexcF]
  have hcatS : Spacy.classify_against_template E1c "pay unless agreed" "pay unless agreed" tpl1std
      = ("Standard", 85/100, "semantic_high",
          [⟨"exception_check", false, none, "Detected conditional/exception tokens"⟩,
           ⟨"exact_normalized_match", false, none, "Exact match after normalization"⟩,
           ⟨"placeholder_substitution", false, none, "Placeholder/value substitutions align"⟩,
           ⟨"fuzzy_lexical", false, some (1/2), "RapidFuzz ratio"⟩,
           ⟨"semantic_sbert", true, some (4/5), "SBERT cosine"⟩]) := by
    simp [Spacy.classify_against_template, tpl1std, E1c, hexcT, hb1,
      Spacy.check_placeholder_substitution, Spacy.compute_sbert_similarity,
      Spacy.fuzzy_threshold, Spacy.sbert_threshold, decide_eq_true_eq, decide_eq_false_iff_not]
    norm_num
  have hf : [tpl1exc, tpl1std].filter (fun t => t.attr == "Medicaid Timely Filing")
      = [tpl1exc, tpl1std] := by decide
  have hkey : Spacy.classify_clause_for_attribute E1c [tpl1exc, tpl1std] c1c
        "Medicaid Timely Filing"
      = { clause_id := 1, attr := "Medicaid Timely Filing", template_used := "T1exc",
          label := "Non-Standard", score := 9/10, rule := "new_condition",
          text := "pay unless agreed",
          steps := [⟨"exception_check", true, none, "Detected conditional/exception tokens"⟩] } := by
    simp only [Spacy.classify_clause_for_attribute, hf, c1c, Option.getD, hpl,
      Spacy.select_best, hcatE, hcatS]
    norm_num [tpl1exc]
  exact ⟨by rw [hcatS], by rw [hkey], by rw [hkey]⟩

/-- Claim C1 as amended: the notebook choose_best_template does return a
pair maximal under (label priority, score); the worker selector instead
returns a pair whose raw score is greatest among the candidate templates
(ties keeping the earliest), with label priority playing no role. -/
theorem claim1_amended :
    (∀ (E : Spacy.Engines) (tpls : List TemplateClause) (c : ClauseDict) (a : String)
       (t0 : TemplateClause) (rest : List TemplateClause),
      tpls.filter (fun t => t.attr == a) = t0 :: rest →
      ∀ t ∈ t0 :: rest,
        (Spacy.classify_against_template E c.text (c.norm_text.getD (pyLower c.text)) t).2.1
          ≤ (Spacy.classify_clause_for_attribute E tpls c a).score) ∧
    (∀ (E : NB.Engines) (c : NB.NBClause) (tpls : List TemplateClause) (target : String)
       (m : TemplateClause) (ms : List TemplateClause),
      tpls.filter (fun t => t.attr == target) = m :: ms →
      ∀ t ∈ m :: ms,
        NB.keyLeB (NB.scoreKey (NB.mkRanked t.name (NB.classify_against_template E c t)))
          (NB.scoreKey (NB.choose_best_template E c tpls target)) = true) := by
  constructor
  · intro E tpls c a t0 rest hf t ht
    have hmax := Spacy.select_best_max E c.text (c.norm_text.getD (pyLower c.text))
      (t0 :: rest) (none, -1) (by rintro r2 h2; simp at h2)
    simp only [Spacy.classify_clause_for_attribute, hf]
    rcases hs : (Spacy.select_best E c.text (c.norm_text.getD (pyLower c.text))
        (t0 :: rest) (none, -1)).1 with _ | r
    · have hsome := Spacy.select_best_cons_start E c.text (c.norm_text.getD (pyLower c.text)) t0 rest
      rw [hs] at hsome
      simp at hsome
    · simp only [hs]
      calc (Spacy.classify_against_template E c.text (c.norm_text.getD (pyLower c.text)) t).2.1
          ≤ (Spacy.select_best E c.text (c.norm_text.getD (pyLower c.text))
              (t0 :: rest) (none, -1)).2 := hmax.2.1 t ht
        _ = r.2.1 := hmax.2.2 r hs
  · intro E c tpls target m ms hf t ht
    exact NB.choose_best_template_max E c tpls target m ms hf t ht

/-- Witness for the amended C1 at a concrete single-template input, for
both the worker selector and the notebook selector. -/
theorem claim1_witness :
    ([tplB].filter (fun t => t.attr == "A") = tplB :: []) ∧
    ((Spacy.classify_against_template Ez c10.text (c10.norm_text.getD (pyLower c10.text)) tplB).2.1
      ≤ (Spacy.classify_clause_for_attribute Ez [tplB] c10 "A").score) ∧
    (NB.keyLeB (NB.scoreKey (NB.mkRanked tplB.name (NB.classify_against_template NEz nbc1 tplB)))
      (NB.scoreKey (NB.choose_best_template NEz nbc1 [tplB] "A")) = true) := by
  have hf : [tplB].filter (fun t => t.attr == "A") = tplB :: [] := by decide
  exact ⟨hf, claim1_amended.1 Ez [tplB] c10 "A" tplB [] hf tplB (by simp),
    claim1_amended.2 NEz nbc1 [tplB] "A" tplB [] hf tplB (by simp)⟩

/-- Counterexample to C7: with the SBERT model loaded but its encode call
raising, the worker cascade records the semantic step with the defaulted
score 0.0 (not null), and no semantic step with a null score exists in the
trace; the defaulted value flows into the threshold comparisons. -/
theorem claim7_counterexample :
    ((⟨"semantic_sbert", false, some 0, "SBERT cosine"⟩ : StepResult)
      ∈ (Spacy.classify_against_template E7c "alpha beta" "alpha beta" t7).2.2.2) ∧
    (∀ st ∈ (Spacy.classify_against_template E7c "alpha beta" "alpha beta" t7).2.2.2,
      st.step_name = "semantic_sbert" → st.score ≠ none) := by
  have hexc : Spacy.contains_exception_tokens "alpha beta" false = false := by decide
  have hbeq : (("alpha beta" : String) == "gamma delta") = false := by decide
  have hmeth : Spacy.detect_methodology_reference "alpha beta" = false := by decide
  have hcat : Spacy.classify_against_template E7c "alpha beta" "alpha beta" t7
      = ("Non-Standard", 0, "low_similarity",
          [⟨"exception_check", false, none, "Detected conditional/exception tokens"⟩,
           ⟨"exact_normalized_match", false, none, "Exact match after normalization"⟩,
           ⟨"placeholder_substitution", false, none, "Placeholder/value substitutions align"⟩,
           ⟨"fuzzy_lexical", false, some 0, "RapidFuzz ratio"⟩,
           ⟨"semantic_sbert", false, some 0, "SBERT cosine"⟩,
           ⟨"different_methodology", false, none, "References alternate payment methodology"⟩,
           ⟨"default_nonstandard", true, some 0, "Low similarity, no rules satisfied"⟩]) := by
    simp [Spacy.classify_against_template, Spacy.methodology_and_default, t7, E7c, hexc, hbeq,
      hmeth, Spacy.check_placeholder_substitution, Spacy.compute_sbert_similarity,
      Spacy.fuzzy_threshold, Spacy.sbert_threshold, Spacy.sbert_ambig_low,
      Spacy.sbert_ambig_high, decide_eq_true_eq, decide_eq_false_iff_not]
    norm_num
  rw [hcat]
  constructor
  · simp
  · intro st hst hname
    fin_cases hst <;> simp_all

/-- Claim C7 as amended: when the SBERT model is absent (disabled), the
dependent cascade steps are skipped entirely and no degraded-mode step is
recorded at all; when the model is present but its call raises, the
similarity is defaulted to 0.0 and recorded as an ordinary semantic step
with score 0 (never null), which the threshold comparisons then consume. -/
theorem claim7_amended :
    (∀ (E : Spacy.Engines) (ct cn : String) (t : TemplateClause),
      E.sbertModel = none →
      ∀ st ∈ (Spacy.classify_against_template E ct cn t).2.2.2,
        st.step_name ≠ "semantic_sbert" ∧ st.step_name ≠ "semantic_ambiguous") ∧
    (∀ (E : Spacy.Engines) (model : String → String → Option ℚ) (ct cn : String)
       (t : TemplateClause),
      E.sbertModel = some model → model ct t.raw_text = none →
      Spacy.contains_exception_tokens ct t.has_exception_tokens = false →
      (cn == t.norm_text) = false →
      Spacy.check_placeholder_substitution E ct t.raw_text = false →
      decide (E.fuzzRatio cn t.norm_text ≥ Spacy.fuzzy_threshold) = false →
      (⟨"semantic_sbert", false, some 0, "SBERT cosine"⟩ : StepResult)
        ∈ (Spacy.classify_against_template E ct cn t).2.2.2) := by
  constructor
  · intro E ct cn t hm
    simp only [Spacy.classify_against_template, hm, Spacy.methodology_and_default]
    split_ifs <;> intro st hst <;> fin_cases hst <;> exact ⟨by simp, by simp⟩
  · intro E model ct cn t hm hmod hexc hbeq hph hfz
    have hsb : Spacy.compute_sbert_similarity model ct t.raw_text = 0 := by
      simp [Spacy.compute_sbert_similarity, hmod]
    simp only [Spacy.classify_against_template, hm, hexc, hbeq, hph, hfz, hsb,
      Bool.false_eq_true, if_false]
    have hhigh : (decide ((0:ℚ) ≥ Spacy.sbert_threshold)) = false := by
      simp [Spacy.sbert_threshold]
    rw [hhigh]
    simp only [Bool.false_eq_true, if_false]
    rw [if_neg (by norm_num [Spacy.sbert_ambig_low])]
    exact Spacy.mad_steps_mono _ _ _ _ (by simp)

/-- Witness for the amended C7 at a concrete input: the failing encode
call leads to a recorded semantic step with the defaulted score 0. -/
theorem claim7_witness :
    E7c.sbertModel = some (fun _ _ => none) ∧
    ((⟨"semantic_sbert", false, some 0, "SBERT cosine"⟩ : StepResult)
      ∈ (Spacy.classify_against_template E7c "alpha beta" "alpha beta" t7).2.2.2) := by
  refine ⟨rfl, claim7_amended.2 E7c (fun _ _ => none) "alpha beta" "alpha beta" t7 rfl rfl
    (by decide) (by decide) ?_ ?_⟩
  · simp [Spacy.check_placeholder_substitution, E7c, decide_eq_false_iff_not]
  · simp [E7c, Spacy.fuzzy_threshold, decide_eq_false_iff_not]

/-- Counterexample to C8: a contract with one clause (N = 1) matching two
attributes and no skipped clause (K = 0) produces two decisions, so the
Standard, Non-Standard and Ambiguous counts of the stage-2 summary sum to
2, not N - K = 1; no Skip count field exists in that summary at all. -/
theorem claim8_counterexample :
    Spacy.detect_attributes c8.text = ["Medicaid Timely Filing", "Medicare Timely Filing"] ∧
    ([c8].filter (fun c => (Spacy.detect_attributes c.text).isEmpty)).length = 0 ∧
    (Stage2.summarize [c8] (Spacy.classify_clauses Ez [tpl8a, tpl8b] [c8])).standard_count
      + (Stage2.summarize [c8] (Spacy.classify_clauses Ez [tpl8a, tpl8b] [c8])).non_standard_count
      + (Stage2.summarize [c8] (Spacy.classify_clauses Ez [tpl8a, tpl8b] [c8])).ambiguous_count
      = 2 ∧
    ¬ ((2 : ℕ) = ([c8] : List ClauseDict).length
        - ([c8].filter (fun c => (Spacy.detect_attributes c.text).isEmpty)).length) := by
  have hdet : Spacy.detect_attributes c8.text
      = ["Medicaid Timely Filing", "Medicare Timely Filing"] := by decide
  have hpl : pyLower "medicaid filing and medicare filing"
      = "medicaid filing and medicare filing" := by decide
  have hexc : Spacy.contains_exception_tokens "medicaid filing and medicare filing" false
      = false := by decide
  have hmeth : Spacy.detect_methodology_reference "medicaid filing and medicare filing"
      = false := by decide
  have hfa : [tpl8a, tpl8b].filter (fun t => t.attr == "Medicaid Timely Filing")
      = [tpl8a] := by decide
  have hfb : [tpl8a, tpl8b].filter (fun t => t.attr == "Medicare Timely Filing")
      = [tpl8b] := by decide
  have hba : (("medicaid filing and medicare filing" : String) == "template text a")
      = false := by decide
  have hbb : (("medicaid filing and medicare filing" : String) == "template text b")
      = false := by decide
  have hcata : Spacy.classify_against_template Ez "medicaid filing and medicare filing"
        "medicaid filing and medicare filing" tpl8a
      = ("Non-Standard", 0, "low_similarity",
          [⟨"exception_check", false, none, "Detected conditional/exception tokens"⟩,
           ⟨"exact_normalized_match", false, none, "Exact match after normalization"⟩,
           ⟨"placeholder_substitution", false, none, "Placeholder/value substitutions align"⟩,
           ⟨"fuzzy_lexical", false, some 0, "RapidFuzz ratio"⟩,
           ⟨"different_methodology", false, none, "References alternate payment methodology"⟩,
           ⟨"default_nonstandard", true, some 0, "Low similarity, no rules satisfied"⟩]) := by
    simp [Spacy.classify_against_template, Spacy.methodology_and_default, tpl8a, Ez, hexc, hba,
      hmeth, Spacy.check_placeholder_substitution, Spacy.fuzzy_threshold,
      decide_eq_true_eq, decide_eq_false_iff_not]
    norm_num
  have hcatb : Spacy.classify_against_template Ez "medicaid filing and medicare filing"
        "medicaid filing and medicare filing" tpl8b
      = ("Non-Standard", 0, "low_similarity",
          [⟨"exception_check", false, none, "Detected conditional/exception tokens"⟩,
           ⟨"exact_normalized_match", false, none, "Exact match after normalization"⟩,
           ⟨"placeholder_substitution", false, none, "Placeholder/value substitutions align"⟩,
           ⟨"fuzzy_lexical", false, some 0, "RapidFuzz ratio"⟩,
           ⟨"different_methodology", false, none, "References alternate payment methodology"⟩,
           ⟨"default_nonstandard", true, some 0, "Low similarity, no rules satisfied"⟩]) := by
    simp [Spacy.classify_against_template, Spacy.methodology_and_default, tpl8b, Ez, hexc, hbb,
      hmeth, Spacy.check_placeholder_substitution, Spacy.fuzzy_threshold,
      decide_eq_true_eq, decide_eq_false_iff_not]
    norm_num
  have hd1 : Spacy.classify_clause_for_attribute Ez [tpl8a, tpl8b] c8 "Medicaid Timely Filing"
      = { clause_id := 1, attr := "Medicaid Timely Filing", template_used := "TplMedicaidTF",
          label := "Non-Standard", score := 0, rule := "low_similarity",
          text := "medicaid filing and medicare filing",
          steps := [⟨"exception_check", false, none, "Detected conditional/exception tokens"⟩,
           ⟨"exact_normalized_match", false, none, "Exact match after normalization"⟩,
           ⟨"placeholder_substitution", false, none, "Placeholder/value substitutions align"⟩,
           ⟨"fuzzy_lexical", false, some 0, "RapidFuzz ratio"⟩,
           ⟨"different_methodology", false, none, "References alternate payment methodology"⟩,
           ⟨"default_nonstandard", true, some 0, "Low similarity, no rules satisfied"⟩] } := by
    simp only [Spacy.classify_clause_for_attribute, hfa, c8, Option.getD, hpl,
      Spacy.select_best, hcata]
    norm_num [tpl8a]
  have hd2 : Spacy.classify_clause_for_attribute Ez [tpl8a, tpl8b] c8 "Medicare Timely Filing"
      = { clause_id := 1, attr := "Medicare Timely Filing", template_used := "TplMedicareTF",
          label := "Non-Standard", score := 0, rule := "low_similarity",
          text := "medicaid filing and medicare filing",
          steps := [⟨"exception_check", false, none, "Detected conditional/exception tokens"⟩,
           ⟨"exact_normalized_match", false, none, "Exact match after normalization"⟩,
           ⟨"placeholder_substitution", false, none, "Placeholder/value substitutions align"⟩,
           ⟨"fuzzy_lexical", false, some 0, "RapidFuzz ratio"⟩,
           ⟨"different_methodology", false, none, "References alternate payment methodology"⟩,
           ⟨"default_nonstandard", true, some 0, "Low similarity, no rules satisfied"⟩] } := by
    simp only [Spacy.classify_clause_for_attribute, hfb, c8, Option.getD, hpl,
      Spacy.select_best, hcatb]
    norm_num [tpl8b]
  have hcc : Spacy.classify_clauses Ez [tpl8a, tpl8b] [c8]
      = [Spacy.classify_clause_for_attribute Ez [tpl8a, tpl8b] c8 "Medicaid Timely Filing",
         Spacy.classify_clause_for_attribute Ez [tpl8a, tpl8b] c8 "Medicare Timely Filing"] := by
    simp [Spacy.classify_clauses, hdet]
  refine ⟨hdet, by simp [hdet], ?_, by decide⟩
  rw [hcc, hd1, hd2]
  simp [Stage2.summarize, Stage2.valid_labels]

/-- Claim C8 as amended: the stage-2 summary has no Skip count; its
Standard, Non-Standard and Ambiguous counts are taken over the decision
list (one decision per clause-attribute pair), so they sum to the number
of decisions minus the number of Skip decisions, and the Skip decisions
correspond one-to-one to the clauses with no detected attribute; the
total-clauses field is the clause-list length.  The summary of
ClassificationEngine.generate_summary exposes only a total, a Standard
count and their difference as the Non-Standard count. -/
theorem claim8_amended :
    (∀ (E : Spacy.Engines) (tpls : List TemplateClause) (clauses : List ClauseDict),
      (Stage2.summarize clauses (Spacy.classify_clauses E tpls clauses)).standard_count
        + (Stage2.summarize clauses (Spacy.classify_clauses E tpls clauses)).non_standard_count
        + (Stage2.summarize clauses (Spacy.classify_clauses E tpls clauses)).ambiguous_count
        = (Spacy.classify_clauses E tpls clauses).length
          - ((Spacy.classify_clauses E tpls clauses).filter
              (fun d => d.label == "Skip")).length ∧
      ((Spacy.classify_clauses E tpls clauses).filter (fun d => d.label == "Skip")).length
        = (clauses.filter (fun c => (Spacy.detect_attributes c.text).isEmpty)).length ∧
      (Stage2.summarize clauses (Spacy.classify_clauses E tpls clauses)).total_clauses
        = clauses.length) ∧
    (∀ cls : List (String × String),
      (Engine.generate_summary cls).non_standard_clauses
        = cls.length - (Engine.generate_summary cls).standard_clauses) := by
  constructor
  · intro E tpls clauses
    have hval : ∀ d ∈ (Spacy.classify_clauses E tpls clauses).filter
        (fun r => Stage2.valid_labels.contains r.label),
        d.label = "Standard" ∨ d.label = "Non-Standard" ∨ d.label = "Ambiguous" := by
      intro d hd
      rw [List.mem_filter] at hd
      rcases Spacy.cc_label_four E tpls clauses d hd.1 with h | h | h | h
      · exfalso
        rw [h] at hd
        exact absurd hd.2 (by decide)
      · exact Or.inl h
      · exact Or.inr (Or.inl h)
      · exact Or.inr (Or.inr h)
    have hsum := Spacy.count_three_labels _ hval
    have hpart := Spacy.count_valid_skip (Spacy.classify_clauses E tpls clauses)
      (fun d hd => Spacy.cc_label_four E tpls clauses d hd)
    refine ⟨?_, Spacy.skip_count_eq E tpls clauses, rfl⟩
    simp only [Stage2.summarize]
    rw [hsum]
    omega
  · intro cls
    rfl

/-- Counterexample to C9: on an empty contract clause the cited
ClassificationEngine.classify_clause returns a zero-confidence
Non-Standard result with match type no_match, not a Skip decision. -/
theorem claim9_counterexample :
    (Engine.classify_clause m9 "" "template text" "Medicaid Timely Filing").classification
      = "Non-Standard" ∧
    (Engine.classify_clause m9 "" "template text" "Medicaid Timely Filing").classification
      ≠ "Skip" ∧
    (Engine.classify_clause m9 "" "template text" "Medicaid Timely Filing").confidence_score
      = 0 :=
  ⟨rfl, by decide, rfl⟩

/-- Claim C9 as amended: an empty contract clause (or empty template text)
makes ClassificationEngine.classify_clause return the local zero-confidence
Non-Standard no_match result without raising; in the spaCy pipeline an
empty-text clause matches no attribute pattern and is therefore recorded
as a Skip decision, never propagated as a run failure. -/
theorem claim9_amended :
    (∀ (m : Engine.Matcher) (tpl a : String),
      Engine.classify_clause m "" tpl a = Engine.no_match_result) ∧
    (∀ (m : Engine.Matcher) (cc a : String),
      Engine.classify_clause m cc "" a = Engine.no_match_result) ∧
    (∀ (E : Spacy.Engines) (tpls : List TemplateClause) (clauses : List ClauseDict)
       (c : ClauseDict), c ∈ clauses → c.text = "" →
      Spacy.skip_decision c ∈ Spacy.classify_clauses E tpls clauses) := by
  refine ⟨?_, ?_, ?_⟩
  · intro m tpl a
    simp [Engine.classify_clause]
  · intro m cc a
    simp [Engine.classify_clause]
  · intro E tpls clauses c hc htext
    apply Spacy.skip_mem_classify_clauses E tpls clauses c hc
    rw [htext]
    decide

/-- Witness for the amended C9 at a concrete empty-text clause. -/
theorem claim9_witness :
    c9e ∈ [c9e] ∧ c9e.text = "" ∧
    Spacy.skip_decision c9e ∈ Spacy.classify_clauses Ez [] [c9e] ∧
    Engine.classify_clause m9 "" "template text" "Medicaid Timely Filing"
      = Engine.no_match_result :=
  ⟨by simp, rfl, claim9_amended.2.2 Ez [] [c9e] c9e (by simp) rfl,
   claim9_amended.1 m9 "template text" "Medicaid Timely Filing"⟩

end HiLabs
